import Mathlib

/-!
Verification of `pcl::RGBPlaneCoefficientComparator`
(src/segmentation/include/pcl/segmentation/rgb_plane_coefficient_comparator.h).

Floating-point scalars (`float`/`double`) are embedded as real numbers; the
8-bit color channels, which the source promotes to `int` before subtracting,
are embedded as integers.
-/

namespace Pcl

/-- A point of the organized RGB cloud (`PointT`): position fields `x`, `y`,
`z` and color channels `r`, `g`, `b`.  The C++ channels are 8-bit unsigned
values that `compare` promotes to `int` before subtracting, so integer
arithmetic models the channel differences exactly. -/
structure PointXYZRGB where
  x : ℝ
  y : ℝ
  z : ℝ
  r : ℤ
  g : ℤ
  b : ℤ

/-- A surface normal of the normal cloud (`PointNT`): the three components
read by `getNormalVector3fMap ()`. -/
structure NormalT where
  normal_x : ℝ
  normal_y : ℝ
  normal_z : ℝ

/-- The 3-component dot product
`getNormalVector3fMap ().dot (getNormalVector3fMap ())` used in `compare`. -/
def normalDot (n m : NormalT) : ℝ :=
  n.normal_x * m.normal_x + n.normal_y * m.normal_y + n.normal_z * m.normal_z

/-- State of an `RGBPlaneCoefficientComparator`.  The three threshold fields
are declared in the header itself.  Modelled from the spec: the inherited
members `input_`, `normals_` and `plane_coeff_d_` are declared in base-class
headers that are not part of this snapshot; per the spec they are non-owning
references to externally owned, grid-indexed point and normal sequences
(out-of-bounds indices are caller-prevented undefined behavior, so the
sequences are modelled as total functions on indices) and a possibly-unset
pointer to a vector of plane d-coefficients (`none` encodes an unset
pointer). -/
structure RGBPlaneCoefficientComparator where
  input_ : ℕ → PointXYZRGB
  normals_ : ℕ → NormalT
  plane_coeff_d_ : Option (List ℝ)
  angular_threshold_ : ℝ
  distance_threshold_ : ℝ
  color_threshold_ : ℝ

/-- The empty constructor: the member-initializer list stores the literal
values `0`, `0.02` and `50.0` into the three threshold fields.  Modelled from
the spec: the inherited cloud references start in whatever state the base
default construction gives them (externally unspecified, taken here as
parameters) and the inherited plane-coefficient pointer starts unset. -/
def mkDefault (input : ℕ → PointXYZRGB) (normals : ℕ → NormalT) :
    RGBPlaneCoefficientComparator :=
  { input_ := input
    normals_ := normals
    plane_coeff_d_ := none
    angular_threshold_ := 0
    distance_threshold_ := 0.02
    color_threshold_ := 50.0 }

/-- The constructor taking `plane_coeff_d`: its parameter appears neither in
the member-initializer list nor in the (empty) body, so it initializes
exactly as the empty constructor does and the argument is dropped. -/
def mkWithPlaneCoeffD (input : ℕ → PointXYZRGB) (normals : ℕ → NormalT)
    (plane_coeff_d : List ℝ) : RGBPlaneCoefficientComparator :=
  { input_ := input
    normals_ := normals
    plane_coeff_d_ := none
    angular_threshold_ := 0
    distance_threshold_ := 0.02
    color_threshold_ := 50.0 }

/-- `setInputNormals`: installs the normal-cloud reference. -/
def setInputNormals (c : RGBPlaneCoefficientComparator) (normals : ℕ → NormalT) :
    RGBPlaneCoefficientComparator :=
  { c with normals_ := normals }

/-- `getInputNormals`: returns the stored normal-cloud reference. -/
def getInputNormals (c : RGBPlaneCoefficientComparator) : ℕ → NormalT :=
  c.normals_

/-- `setPlaneCoeffD`: stores the plane d-coefficient vector
(`plane_coeff_d_ = plane_coeff_d`). -/
def setPlaneCoeffD (c : RGBPlaneCoefficientComparator) (plane_coeff_d : List ℝ) :
    RGBPlaneCoefficientComparator :=
  { c with plane_coeff_d_ := some plane_coeff_d }

/-- `setAngularThreshold`: stores `cosf (angular_threshold)`. -/
noncomputable def setAngularThreshold (c : RGBPlaneCoefficientComparator)
    (angular_threshold : ℝ) : RGBPlaneCoefficientComparator :=
  { c with angular_threshold_ := Real.cos angular_threshold }

/-- `getAngularThreshold`: returns `acosf (angular_threshold_)`. -/
noncomputable def getAngularThreshold (c : RGBPlaneCoefficientComparator) : ℝ :=
  Real.arccos c.angular_threshold_

/-- `setDistanceThreshold`: stores `distance_threshold * distance_threshold`. -/
def setDistanceThreshold (c : RGBPlaneCoefficientComparator)
    (distance_threshold : ℝ) : RGBPlaneCoefficientComparator :=
  { c with distance_threshold_ := distance_threshold * distance_threshold }

/-- `getDistanceThreshold`: returns the stored `distance_threshold_`
unchanged. -/
def getDistanceThreshold (c : RGBPlaneCoefficientComparator) : ℝ :=
  c.distance_threshold_

/-- `setColorThreshold`: stores `color_threshold * color_threshold`. -/
def setColorThreshold (c : RGBPlaneCoefficientComparator)
    (color_threshold : ℝ) : RGBPlaneCoefficientComparator :=
  { c with color_threshold_ := color_threshold * color_threshold }

/-- `getColorThreshold`: returns the stored `color_threshold_` unchanged. -/
def getColorThreshold (c : RGBPlaneCoefficientComparator) : ℝ :=
  c.color_threshold_

/-- `compare (idx1, idx2)`, translated statement by statement from the
source: local position differences `dx`, `dy`, `dz`, the non-squared
Euclidean distance `dist = sqrt (dx*dx + dy*dy + dz*dz)`, integer channel
differences `dr`, `dg`, `db`, the squared color distance
`color_dist = float (dr*dr + dg*dg + db*db)`, and the conjunction
`dist < distance_threshold_ && dot > angular_threshold_ &&
color_dist < color_threshold_`. -/
noncomputable def compare (c : RGBPlaneCoefficientComparator) (idx1 idx2 : ℕ) : Prop :=
  let dx : ℝ := (c.input_ idx1).x - (c.input_ idx2).x
  let dy : ℝ := (c.input_ idx1).y - (c.input_ idx2).y
  let dz : ℝ := (c.input_ idx1).z - (c.input_ idx2).z
  let dist : ℝ := Real.sqrt (dx * dx + dy * dy + dz * dz)
  let dr : ℤ := (c.input_ idx1).r - (c.input_ idx2).r
  let dg : ℤ := (c.input_ idx1).g - (c.input_ idx2).g
  let db : ℤ := (c.input_ idx1).b - (c.input_ idx2).b
  let color_dist : ℝ := ((dr * dr + dg * dg + db * db : ℤ) : ℝ)
  dist < c.distance_threshold_
    ∧ normalDot (c.normals_ idx1) (c.normals_ idx2) > c.angular_threshold_
    ∧ color_dist < c.color_threshold_

/-- `compare` as a state transformer returning the boolean result together
with the post-state: the method is declared `const` and its body introduces
only local variables and reads members, so the post-state equals the
pre-state. -/
noncomputable def compareRun (c : RGBPlaneCoefficientComparator) (idx1 idx2 : ℕ) :
    Prop × RGBPlaneCoefficientComparator :=
  (compare c idx1 idx2, c)

/-- Spec-side definition for the refinement claim C1, following the spec's
words: the Euclidean (non-squared) distance, the square root of the summed
squared coordinate differences. -/
noncomputable def euclideanDistanceSpec (p q : PointXYZRGB) : ℝ :=
  Real.sqrt ((p.x - q.x) ^ 2 + (p.y - q.y) ^ 2 + (p.z - q.z) ^ 2)

/-- Spec-side definition for the refinement claim C1, following the spec's
words: the sum of squared per-channel (r, g, b) color differences. -/
def squaredColorDistanceSpec (p q : PointXYZRGB) : ℝ :=
  (((p.r - q.r) ^ 2 + (p.g - q.g) ^ 2 + (p.b - q.b) ^ 2 : ℤ) : ℝ)

/-- A concrete point used to instantiate closed theorems. -/
def testPoint : PointXYZRGB :=
  ⟨0, 0, 0, 0, 0, 0⟩

/-- A concrete unit normal used to instantiate closed theorems. -/
def testNormal : NormalT :=
  ⟨1, 0, 0⟩

/-- A constant cloud of `testPoint`. -/
def testCloud : ℕ → PointXYZRGB :=
  fun _ => testPoint

/-- A constant cloud of `testNormal`. -/
def testNormals : ℕ → NormalT :=
  fun _ => testNormal

/-- A concrete comparator for closed instantiations: identical points
everywhere, unit normals, positive distance/color thresholds, angular
threshold `cos pi = -1`. -/
noncomputable def c3Comparator : RGBPlaneCoefficientComparator :=
  ⟨testCloud, testNormals, none, Real.cos Real.pi, 1, 1⟩

/-- A two-point cloud whose entries differ in every position coordinate and
every color channel. -/
def c6Cloud : ℕ → PointXYZRGB
  | 0 => ⟨0, 0, 0, 0, 0, 0⟩
  | _ + 1 => ⟨1, 1, 1, 5, 5, 5⟩

/-- A comparator over `c6Cloud` with positive thresholds. -/
def c6Comparator : RGBPlaneCoefficientComparator :=
  ⟨c6Cloud, testNormals, none, 0, 1, 1⟩

/-- Unfolding lemma for `compare`: the three comparisons spelled out. -/
theorem compare_def (c : RGBPlaneCoefficientComparator) (idx1 idx2 : ℕ) :
    compare c idx1 idx2 ↔
      (Real.sqrt
          (((c.input_ idx1).x - (c.input_ idx2).x) * ((c.input_ idx1).x - (c.input_ idx2).x)
            + ((c.input_ idx1).y - (c.input_ idx2).y) * ((c.input_ idx1).y - (c.input_ idx2).y)
            + ((c.input_ idx1).z - (c.input_ idx2).z) * ((c.input_ idx1).z - (c.input_ idx2).z))
          < c.distance_threshold_
        ∧ normalDot (c.normals_ idx1) (c.normals_ idx2) > c.angular_threshold_
        ∧ (((((c.input_ idx1).r - (c.input_ idx2).r) * ((c.input_ idx1).r - (c.input_ idx2).r)
            + ((c.input_ idx1).g - (c.input_ idx2).g) * ((c.input_ idx1).g - (c.input_ idx2).g)
            + ((c.input_ idx1).b - (c.input_ idx2).b) * ((c.input_ idx1).b - (c.input_ idx2).b) : ℤ)) : ℝ)
          < c.color_threshold_) :=
  Iff.rfl

/-- Claim C1: for every configured point cloud, normal cloud and indices
`i`, `j`, `compare i j` holds iff the Euclidean (non-squared) distance
between point `i` and point `j` is less than the stored distance-threshold
value, the dot product of the two normals exceeds the stored cosine
threshold, and the sum of squared per-channel color differences is less
than the stored color-threshold value. -/
theorem compare_iff_dist_dot_color (c : RGBPlaneCoefficientComparator) (i j : ℕ) :
    compare c i j ↔
      (euclideanDistanceSpec (c.input_ i) (c.input_ j) < c.distance_threshold_
        ∧ normalDot (c.normals_ i) (c.normals_ j) > c.angular_threshold_
        ∧ squaredColorDistanceSpec (c.input_ i) (c.input_ j) < c.color_threshold_) := by
  rw [compare_def]
  unfold euclideanDistanceSpec squaredColorDistanceSpec
  have h1 : ((c.input_ i).x - (c.input_ j).x) * ((c.input_ i).x - (c.input_ j).x)
      + ((c.input_ i).y - (c.input_ j).y) * ((c.input_ i).y - (c.input_ j).y)
      + ((c.input_ i).z - (c.input_ j).z) * ((c.input_ i).z - (c.input_ j).z)
      = ((c.input_ i).x - (c.input_ j).x) ^ 2 + ((c.input_ i).y - (c.input_ j).y) ^ 2
        + ((c.input_ i).z - (c.input_ j).z) ^ 2 := by ring
  have h2 : (((c.input_ i).r - (c.input_ j).r) * ((c.input_ i).r - (c.input_ j).r)
      + ((c.input_ i).g - (c.input_ j).g) * ((c.input_ i).g - (c.input_ j).g)
      + ((c.input_ i).b - (c.input_ j).b) * ((c.input_ i).b - (c.input_ j).b) : ℤ)
      = ((c.input_ i).r - (c.input_ j).r) ^ 2 + ((c.input_ i).g - (c.input_ j).g) ^ 2
        + ((c.input_ i).b - (c.input_ j).b) ^ 2 := by ring
  rw [h1, h2]

/-- Claim C2 counterexample: after default construction the stored values
are `0`, `0.02` and `50.0`, not the claimed `1`, `0.0004` and `2500.0`
(already the angular field refutes the claim: the constructor stores the
raw literal `0`, not `cos 0 = 1`). -/
theorem mkDefault_stored_values_ne_claimed :
    ¬ ((mkDefault testCloud testNormals).angular_threshold_ = 1
        ∧ (mkDefault testCloud testNormals).distance_threshold_ = 0.0004
        ∧ (mkDefault testCloud testNormals).color_threshold_ = 2500.0) := by
  intro h
  have h1 : (0 : ℝ) = 1 := h.1
  norm_num at h1

/-- Claim C2 (amended): after construction by either constructor, before any
setter call, the stored angular-threshold value is `0`, the stored
distance-threshold value is `0.02` and the stored color-threshold value is
`50.0` — the raw literals of the member-initializer lists; the setter
transforms (cosine, squaring) are not applied by the constructors. -/
theorem ctor_stored_values (input : ℕ → PointXYZRGB) (normals : ℕ → NormalT)
    (p : List ℝ) :
    ((mkDefault input normals).angular_threshold_ = 0
      ∧ (mkDefault input normals).distance_threshold_ = 0.02
      ∧ (mkDefault input normals).color_threshold_ = 50.0)
    ∧ ((mkWithPlaneCoeffD input normals p).angular_threshold_ = 0
      ∧ (mkWithPlaneCoeffD input normals p).distance_threshold_ = 0.02
      ∧ (mkWithPlaneCoeffD input normals p).color_threshold_ = 50.0) :=
  ⟨⟨rfl, rfl, rfl⟩, ⟨rfl, rfl, rfl⟩⟩

/-- Claim C3: for two indices whose points have identical position, normal
and color, `compare` holds whenever the stored distance- and
color-threshold values are positive and the stored angular threshold is
the cosine of a positive configured angle (at most pi), the normals being
unit vectors. -/
theorem compare_identical_points (c : RGBPlaneCoefficientComparator) (i j : ℕ)
    (a : ℝ) (hp : c.input_ i = c.input_ j) (hn : c.normals_ i = c.normals_ j)
    (hunit : normalDot (c.normals_ i) (c.normals_ i) = 1)
    (hd : 0 < c.distance_threshold_) (hc : 0 < c.color_threshold_)
    (ha : c.angular_threshold_ = Real.cos a) (ha0 : 0 < a) (haπ : a ≤ Real.pi) :
    compare c i j := by
  rw [compare_def]
  refine ⟨?_, ?_, ?_⟩
  · simpa [hp] using hd
  · rw [← hn, hunit, ha]
    have hlt : Real.cos a < Real.cos 0 :=
      Real.cos_lt_cos_of_nonneg_of_le_pi le_rfl haπ ha0
    simpa using hlt
  · simpa [hp] using hc

/-- Claim C3 witness: the theorem applied at a concrete comparator. -/
theorem compare_identical_points_witness : compare c3Comparator 0 1 :=
  compare_identical_points c3Comparator 0 1 Real.pi rfl rfl
    (by norm_num [c3Comparator, testNormals, testNormal, normalDot])
    (by norm_num [c3Comparator]) (by norm_num [c3Comparator]) rfl
    Real.pi_pos le_rfl

/-- Claim C4: `compare i j` iff `compare j i`, for every configuration and
all indices — each sub-computation is symmetric in its two arguments. -/
theorem compare_symm (c : RGBPlaneCoefficientComparator) (i j : ℕ) :
    compare c i j ↔ compare c j i := by
  rw [compare_def, compare_def]
  have hxyz : ((c.input_ i).x - (c.input_ j).x) * ((c.input_ i).x - (c.input_ j).x)
      + ((c.input_ i).y - (c.input_ j).y) * ((c.input_ i).y - (c.input_ j).y)
      + ((c.input_ i).z - (c.input_ j).z) * ((c.input_ i).z - (c.input_ j).z)
      = ((c.input_ j).x - (c.input_ i).x) * ((c.input_ j).x - (c.input_ i).x)
        + ((c.input_ j).y - (c.input_ i).y) * ((c.input_ j).y - (c.input_ i).y)
        + ((c.input_ j).z - (c.input_ i).z) * ((c.input_ j).z - (c.input_ i).z) := by
    ring
  have hrgb : (((c.input_ i).r - (c.input_ j).r) * ((c.input_ i).r - (c.input_ j).r)
      + ((c.input_ i).g - (c.input_ j).g) * ((c.input_ i).g - (c.input_ j).g)
      + ((c.input_ i).b - (c.input_ j).b) * ((c.input_ i).b - (c.input_ j).b) : ℤ)
      = ((c.input_ j).r - (c.input_ i).r) * ((c.input_ j).r - (c.input_ i).r)
        + ((c.input_ j).g - (c.input_ i).g) * ((c.input_ j).g - (c.input_ i).g)
        + ((c.input_ j).b - (c.input_ i).b) * ((c.input_ j).b - (c.input_ i).b) := by
    ring
  have hdot : normalDot (c.normals_ i) (c.normals_ j)
      = normalDot (c.normals_ j) (c.normals_ i) := by
    unfold normalDot
    ring
  rw [hxyz, hrgb, hdot]

/-- Claim C5: for angles `a1 < a2` in `[0, pi]`, the stored cosine after
`setAngularThreshold a2` is strictly less than after
`setAngularThreshold a1`, and every pair accepted under `a1` is still
accepted under `a2` (all other configuration unchanged). -/
theorem setAngularThreshold_monotone (c : RGBPlaneCoefficientComparator)
    (a1 a2 : ℝ) (h0 : 0 ≤ a1) (h12 : a1 < a2) (h2 : a2 ≤ Real.pi) :
    (setAngularThreshold c a2).angular_threshold_
        < (setAngularThreshold c a1).angular_threshold_
    ∧ ∀ i j : ℕ, compare (setAngularThreshold c a1) i j →
        compare (setAngularThreshold c a2) i j := by
  have hcos : Real.cos a2 < Real.cos a1 :=
    Real.cos_lt_cos_of_nonneg_of_le_pi h0 h2 h12
  refine ⟨hcos, ?_⟩
  intro i j h
  rw [compare_def] at h ⊢
  exact ⟨h.1, lt_trans hcos h.2.1, h.2.2⟩

/-- Claim C5 witness: the theorem applied at angles `0 < pi`. -/
theorem setAngularThreshold_monotone_witness :
    (setAngularThreshold c3Comparator Real.pi).angular_threshold_
        < (setAngularThreshold c3Comparator 0).angular_threshold_
    ∧ ∀ i j : ℕ, compare (setAngularThreshold c3Comparator 0) i j →
        compare (setAngularThreshold c3Comparator Real.pi) i j :=
  setAngularThreshold_monotone c3Comparator 0 Real.pi le_rfl Real.pi_pos le_rfl

/-- Claim C6: after `setDistanceThreshold 0`, `compare` rejects every pair
of indices whose points differ in position; after `setColorThreshold 0`,
`compare` rejects every pair whose points differ in any color channel. -/
theorem zero_threshold_rejects (c : RGBPlaneCoefficientComparator) (i j : ℕ) :
    (((c.input_ i).x ≠ (c.input_ j).x ∨ (c.input_ i).y ≠ (c.input_ j).y
        ∨ (c.input_ i).z ≠ (c.input_ j).z) →
      ¬ compare (setDistanceThreshold c 0) i j)
    ∧ (((c.input_ i).r ≠ (c.input_ j).r ∨ (c.input_ i).g ≠ (c.input_ j).g
        ∨ (c.input_ i).b ≠ (c.input_ j).b) →
      ¬ compare (setColorThreshold c 0) i j) := by
  constructor
  · intro _ h
    rw [compare_def] at h
    have h1 := h.1
    have h0 : (setDistanceThreshold c 0).distance_threshold_ = 0 := by
      simp [setDistanceThreshold]
    rw [h0] at h1
    exact absurd h1 (not_lt.2 (Real.sqrt_nonneg _))
  · intro _ h
    rw [compare_def] at h
    have h1 := h.2.2
    have h0 : (setColorThreshold c 0).color_threshold_ = 0 := by
      simp [setColorThreshold]
    rw [h0] at h1
    have hr := mul_self_nonneg
      (((setColorThreshold c 0).input_ i).r - ((setColorThreshold c 0).input_ j).r)
    have hg := mul_self_nonneg
      (((setColorThreshold c 0).input_ i).g - ((setColorThreshold c 0).input_ j).g)
    have hb := mul_self_nonneg
      (((setColorThreshold c 0).input_ i).b - ((setColorThreshold c 0).input_ j).b)
    have hsum : (0 : ℤ) ≤
        (((setColorThreshold c 0).input_ i).r - ((setColorThreshold c 0).input_ j).r)
          * (((setColorThreshold c 0).input_ i).r - ((setColorThreshold c 0).input_ j).r)
        + (((setColorThreshold c 0).input_ i).g - ((setColorThreshold c 0).input_ j).g)
          * (((setColorThreshold c 0).input_ i).g - ((setColorThreshold c 0).input_ j).g)
        + (((setColorThreshold c 0).input_ i).b - ((setColorThreshold c 0).input_ j).b)
          * (((setColorThreshold c 0).input_ i).b - ((setColorThreshold c 0).input_ j).b) := by
      linarith
    have hcast : (0 : ℝ) ≤
        ((((((setColorThreshold c 0).input_ i).r - ((setColorThreshold c 0).input_ j).r)
          * (((setColorThreshold c 0).input_ i).r - ((setColorThreshold c 0).input_ j).r)
        + (((setColorThreshold c 0).input_ i).g - ((setColorThreshold c 0).input_ j).g)
          * (((setColorThreshold c 0).input_ i).g - ((setColorThreshold c 0).input_ j).g)
        + (((setColorThreshold c 0).input_ i).b - ((setColorThreshold c 0).input_ j).b)
          * (((setColorThreshold c 0).input_ i).b - ((setColorThreshold c 0).input_ j).b) : ℤ)) : ℝ) := by
      exact_mod_cast hsum
    linarith

/-- Claim C6 witness: the theorem applied to a cloud whose points 0 and 1
differ in every coordinate and channel. -/
theorem zero_threshold_rejects_witness :
    ¬ compare (setDistanceThreshold c6Comparator 0) 0 1
    ∧ ¬ compare (setColorThreshold c6Comparator 0) 0 1 :=
  ⟨(zero_threshold_rejects c6Comparator 0 1).1
      (Or.inl (by norm_num [c6Comparator, c6Cloud])),
   (zero_threshold_rejects c6Comparator 0 1).2
      (Or.inl (by norm_num [c6Comparator, c6Cloud]))⟩

/-- Claim C7: `setAngularThreshold a` stores `cos a` and
`getAngularThreshold` returns `arccos` of the stored value (round-tripping
to `a` for `a` in `[0, pi]`); `setDistanceThreshold d` stores `d * d`,
`setColorThreshold e` stores `e * e`, and `getDistanceThreshold` /
`getColorThreshold` return the stored squared value unchanged. -/
theorem set_get_transforms (c : RGBPlaneCoefficientComparator) (a d e : ℝ)
    (h0 : 0 ≤ a) (hπ : a ≤ Real.pi) :
    (setAngularThreshold c a).angular_threshold_ = Real.cos a
    ∧ getAngularThreshold (setAngularThreshold c a) = a
    ∧ (setDistanceThreshold c d).distance_threshold_ = d * d
    ∧ getDistanceThreshold (setDistanceThreshold c d) = d * d
    ∧ (setColorThreshold c e).color_threshold_ = e * e
    ∧ getColorThreshold (setColorThreshold c e) = e * e
    ∧ getDistanceThreshold c = c.distance_threshold_
    ∧ getColorThreshold c = c.color_threshold_ := by
  refine ⟨rfl, ?_, rfl, rfl, rfl, rfl, rfl, rfl⟩
  show Real.arccos (Real.cos a) = a
  exact Real.arccos_cos h0 hπ

/-- Claim C7 witness: the theorem applied at angle `0` and thresholds `2`
and `3`. -/
theorem set_get_transforms_witness :
    (setAngularThreshold c3Comparator 0).angular_threshold_ = Real.cos 0
    ∧ getAngularThreshold (setAngularThreshold c3Comparator 0) = 0
    ∧ (setDistanceThreshold c3Comparator 2).distance_threshold_ = 2 * 2
    ∧ getDistanceThreshold (setDistanceThreshold c3Comparator 2) = 2 * 2
    ∧ (setColorThreshold c3Comparator 3).color_threshold_ = 3 * 3
    ∧ getColorThreshold (setColorThreshold c3Comparator 3) = 3 * 3
    ∧ getDistanceThreshold c3Comparator = c3Comparator.distance_threshold_
    ∧ getColorThreshold c3Comparator = c3Comparator.color_threshold_ :=
  set_get_transforms c3Comparator 0 2 3 le_rfl Real.pi_pos.le

/-- Claim C8: running `compare` leaves every piece of observable state
unchanged — the post-state equals the pre-state in all six fields — and its
first component is the comparison result. -/
theorem compareRun_preserves_state (c : RGBPlaneCoefficientComparator) (i j : ℕ) :
    (compareRun c i j).2 = c
    ∧ (compareRun c i j).2.angular_threshold_ = c.angular_threshold_
    ∧ (compareRun c i j).2.distance_threshold_ = c.distance_threshold_
    ∧ (compareRun c i j).2.color_threshold_ = c.color_threshold_
    ∧ (compareRun c i j).2.plane_coeff_d_ = c.plane_coeff_d_
    ∧ (compareRun c i j).2.input_ = c.input_
    ∧ (compareRun c i j).2.normals_ = c.normals_
    ∧ ((compareRun c i j).1 ↔ compare c i j) :=
  ⟨rfl, rfl, rfl, rfl, rfl, rfl, rfl, Iff.rfl⟩

/-- Claim C9: the result of `compare` does not depend on the stored
plane-coefficient vector — a run in which `setPlaneCoeffD` was called with
any value, and a run in which it was never called, give the same result at
every index pair. -/
theorem compare_ignores_plane_coeff (c c2 : RGBPlaneCoefficientComparator)
    (p : List ℝ) (i j : ℕ) (h : c2 = setPlaneCoeffD c p ∨ c2 = c) :
    (compare c2 i j ↔ compare c i j) := by
  rcases h with h | h
  · subst h
    exact Iff.rfl
  · subst h
    exact Iff.rfl

/-- Claim C9 witness: the theorem applied with a concrete coefficient
vector installed. -/
theorem compare_ignores_plane_coeff_witness :
    compare (setPlaneCoeffD c6Comparator [1]) 0 1 ↔ compare c6Comparator 0 1 :=
  compare_ignores_plane_coeff c6Comparator (setPlaneCoeffD c6Comparator [1])
    [1] 0 1 (Or.inl rfl)

/-- Claim C10: the constructor taking a plane-coefficient vector ignores
its argument — the resulting state equals the default-constructed state and
its plane-coefficient pointer is unset. -/
theorem mkWithPlaneCoeffD_ignores_argument (input : ℕ → PointXYZRGB)
    (normals : ℕ → NormalT) (p : List ℝ) :
    mkWithPlaneCoeffD input normals p = mkDefault input normals
    ∧ (mkWithPlaneCoeffD input normals p).plane_coeff_d_ = none :=
  ⟨rfl, rfl⟩

end Pcl
